import Mathlib

/-!
Verification development for `create_rss_feed.py`, a single-file scraper that
fetches a radio-program listing page, extracts per-episode records from detail
pages, derives a broadcast date from the audio filename, sorts the records by
date descending, and writes an RSS 2.0 feed file.

The Python source is shallowly embedded below.  External effects are made
explicit parameters:
  * `requests.get`       → a `fetch : String → Except PyErr Page` oracle;
  * `ftfy.fix_encoding`  → an abstract `fixe : String → String`;
  * `urllib.parse.urljoin` → an abstract `ujoin : String → String → String`;
  * the environment      → `osEnv : String → Option String` (`os.getenv`);
  * the filesystem       → `FS := String → Option RSS2` (a written file's
    content is modelled by the feed value that `PyRSS2Gen` would serialize);
  * `logging`            → an explicit list of `LogEntry` accumulated per call.
Regular-expression matching (`.*mp3$`, the date pattern) is translated to
explicit character-list tests; `\d` is modelled as an ASCII digit (the Python
pattern would also accept other Unicode digits, which no claim exercises).
-/

namespace CreateRssFeed

/-- Log severity levels used by the program (`logger.info` / `warning` /
`critical`). -/
inductive LogLevel where
  | info
  | warning
  | critical
deriving DecidableEq

/-- One emitted log record: a level and the formatted message. -/
structure LogEntry where
  level : LogLevel
  msg : String
deriving DecidableEq

/-- Python exceptions that the embedded code can raise.  All of them are
subclasses of `Exception`, hence caught by `main`'s broad handler. -/
inductive PyErr where
  /-- `TypeError`, e.g. from `'%s : %s' % value` with a single string argument,
  or from `strptime(None, ...)`. -/
  | typeError (msg : String)
  /-- `ValueError`, e.g. from `datetime.strptime` on malformed data. -/
  | valueError (msg : String)
  /-- `KeyError('href')` from `page_link.attrs['href']` on an anchor without
  an `href` attribute. -/
  | keyError
  /-- A `requests` network/HTTP error, carrying its message. -/
  | network (msg : String)
deriving DecidableEq

/-- Python `str(e)` for the exceptions above (used by `main`'s critical log line).
`str(KeyError('href'))` is the repr of the missing key. -/
def PyErr.str : PyErr → String
  | .typeError m => m
  | .valueError m => m
  | .keyError => "'href'"
  | .network m => m

/-- A naive wall-clock datetime, as produced by `datetime.datetime.strptime`
(and `datetime.datetime.now()` for the last-build stamp). -/
structure Datetime where
  year : Nat
  month : Nat
  day : Nat
  hour : Nat
  minute : Nat
  second : Nat
deriving DecidableEq

/-- An `<a>` element as seen through BeautifulSoup: its `href` attribute may
be absent. -/
structure Anchor where
  href : Option String
deriving DecidableEq

/-- A `<div>` element: its `id` attribute (possibly absent) and its text
content (`.text`). -/
structure Div where
  id : Option String
  text : String
deriving DecidableEq

/-- A parsed HTML page, reduced to what the program inspects: its anchors and
divs, each in document order. -/
structure Page where
  anchors : List Anchor
  divs : List Div
deriving DecidableEq

/-- A program record, the dict
`{'title': ..., 'description': ..., 'link': ..., 'date': ...}` built by
`get_programs`; `date` is `None` or a `YYYY-MM-DD` string. -/
structure Program where
  title : String
  description : String
  link : String
  date : Option String
deriving DecidableEq

/-- The `PyRSS2Gen.RSSItem` value restricted to the fields the program sets. -/
structure RSSItem where
  title : String
  link : String
  description : String
  guid : String
  pubDate : Datetime
deriving DecidableEq

/-- The `PyRSS2Gen.RSS2` value restricted to the fields the program sets. -/
structure RSS2 where
  title : String
  link : String
  description : String
  lastBuildDate : Datetime
  items : List RSSItem
deriving DecidableEq

/-- The filesystem, mapping a path to the feed written there (if any). -/
def FS : Type := String → Option RSS2

/-- Writing `rss.write_xml(open(filename, "w"))`: mode `"w"` truncates, so the
previous content at `filename` is unconditionally replaced. -/
def writeFs (fs : FS) (filename : String) (feed : RSS2) : FS :=
  fun n => if n = filename then some feed else fs n

/-- The external pure helpers the extractor calls.
`fixe` models `ftfy.fix_encoding` (mojibake repair) and `ujoin` models
`urllib.parse.urljoin`; both are third-party/stdlib functions kept abstract,
so every theorem below holds for an arbitrary implementation of them. -/
structure Ext where
  fixe : String → String
  ujoin : String → String → String

/-- The five-field configuration dict produced by `load_config`. -/
structure Config where
  start_url : String
  output_file : String
  program_title : String
  program_url : String
  program_desc : String
deriving DecidableEq

/-- The parsed `config.json` file: the code accesses exactly these five keys
(`config_file['START_URL']` etc.), so we model it with the five values. -/
structure FileConfig where
  start_url : String
  output_file : String
  program_title : String
  program_url : String
  program_desc : String
deriving DecidableEq

/-- Models `os.getenv(key, default)`: the environment value whenever the variable is
set — including when it is set to the empty string — and `default` otherwise. -/
def getenv (osEnv : String → Option String) (key : String) (default : String) :
    String :=
  (osEnv key).getD default

/-- The merged configuration of `load_config` lines 28–32: for each key,
`os.getenv(KEY, config_file[KEY])`. -/
def mergeConfig (osEnv : String → Option String) (file : FileConfig) : Config where
  start_url := getenv osEnv "START_URL" file.start_url
  output_file := getenv osEnv "OUTPUT_FILE" file.output_file
  program_title := getenv osEnv "PROGRAM_TITLE" file.program_title
  program_url := getenv osEnv "PROGRAM_URL" file.program_url
  program_desc := getenv osEnv "PROGRAM_DESC" file.program_desc

/-- The list `config.values()` in dict insertion order (Python dicts preserve it). -/
def Config.values (c : Config) : List String :=
  [c.start_url, c.output_file, c.program_title, c.program_url, c.program_desc]

/-- CPython `'Incorrect configuration for %s : %s' % value` where `value` is a
single string: the template has two `%s` conversion specifiers but only one
argument is supplied, so the `%` operator raises
`TypeError: not enough arguments for format string` before the intended
`Exception` is ever constructed. -/
def formatConfigError (_value : String) : PyErr :=
  .typeError "not enough arguments for format string"

/-- Embeds `load_config` (lines 20–39): merge file values with environment overrides,
then scan `config.values()` for an empty value; on the first empty value the
code attempts to format its error message, which itself raises (see
`formatConfigError`). -/
def load_config (osEnv : String → Option String) (file : FileConfig) :
    Except PyErr Config :=
  let config := mergeConfig osEnv file
  match config.values.find? (fun v => v.length == 0) with
  | some v => .error (formatConfigError v)
  | none => .ok config

/-- Python string `<=`: lexicographic comparison of code points
(`a <= b ↔ ¬ (b < a)` for the total lexicographic order). -/
def pyStrLe : List Char → List Char → Bool
  | [], _ => true
  | _ :: _, [] => false
  | a :: as, b :: bs =>
    a.toNat < b.toNat || (a.toNat == b.toNat && pyStrLe as bs)

/-- The comparison performed by `sorted(programs, key=lambda p: p['date'])` on
two date fields.  In Python, comparing `None` with a string raises
`TypeError`; no claim exercises such a comparison (they all assume every
record has a date), so the `none` cases are completed arbitrarily to keep the
order total. -/
def dateLe : Option String → Option String → Bool
  | none, _ => true
  | some _, none => false
  | some a, some b => pyStrLe a.data b.data

/-- Line 108: `sorted(programs, key=lambda p: p['date'], reverse=True)` —
a stable sort by date descending (Timsort modelled by stable merge sort). -/
def sortProgramsByDateDesc (ps : List Program) : List Program :=
  ps.mergeSort (fun p q => dateLe q.date p.date)

/-- Models `re.compile('.*mp3$')` applied via BeautifulSoup's attribute matcher
(`re.search`): it matches exactly the strings ending in lowercase `"mp3"`.
No `re.IGNORECASE` flag is used here. -/
def mp3Pattern (h : String) : Bool :=
  (['m', 'p', '3'] : List Char).isSuffixOf h.data

/-- The predicate of `soup_page.find('a', href=link_regex)`: an anchor whose
`href` attribute is present and matches `.*mp3$`. -/
def anchorMp3 (a : Anchor) : Bool :=
  match a.href with
  | some h => mp3Pattern h
  | none => false

/-- Models `re.search('.*_(\d{4})_(\d{2})_(\d{2})\.mp3$', link, re.IGNORECASE)`
followed by `'-'.join(groups)` (lines 96–99).  Because the pattern is
anchored at the end and all groups have fixed width, it matches exactly the
strings whose last 15 characters are `_DDDD_DD_DD.mp3` with `mp3` matched
case-insensitively; the result joins the three digit groups with `-`. -/
def dateFromLink (s : String) : Option String :=
  if s.data.length < 15 then none
  else
    match s.data.drop (s.data.length - 15) with
    | [u1, y1, y2, y3, y4, u2, m1, m2, u3, d1, d2, dot, p1, p2, p3] =>
      if u1 = '_' && y1.isDigit && y2.isDigit && y3.isDigit && y4.isDigit &&
          u2 = '_' && m1.isDigit && m2.isDigit && u3 = '_' &&
          d1.isDigit && d2.isDigit && dot = '.' &&
          (p1 = 'm' || p1 = 'M') && (p2 = 'p' || p2 = 'P') && p3 = '3' then
        some (String.mk [y1, y2, y3, y4, '-', m1, m2, '-', d1, d2])
      else none
    | _ => none

/-- Title extraction (lines 79–80): the text of the first `div` with
`id="titre"`, repaired by `fix_encoding`; the dict default `''` otherwise. -/
def extractTitle (ext : Ext) (page : Page) : String :=
  match page.divs.find? (fun d => d.id == some "titre") with
  | some d => ext.fixe d.text
  | none => ""

/-- Description extraction (lines 83–84): the text of the first `div` with
`id="emission"`, repaired by `fix_encoding`; `''` otherwise. -/
def extractDescription (ext : Ext) (page : Page) : String :=
  match page.divs.find? (fun d => d.id == some "emission") with
  | some d => ext.fixe d.text
  | none => ""

/-- Link extraction (lines 87–88): the `href` of the first anchor matching
`.*mp3$`, resolved against the detail-page URL; `''` otherwise. -/
def extractLink (ext : Ext) (page_url : String) (page : Page) : String :=
  match page.anchors.find? anchorMp3 with
  | some a => ext.ujoin page_url (a.href.getD "")
  | none => ""

/-- The per-detail-page body of the loop (lines 71–103): build the record,
discard it with a warning if title/description/link is empty, otherwise
derive the date (warning when the filename pattern does not match) and keep
the record.  Returns the record (if kept) and the log entries emitted. -/
def extract_program (ext : Ext) (page_url : String) (page : Page) :
    Option Program × List LogEntry :=
  let title := extractTitle ext page
  let descr := extractDescription ext page
  let link := extractLink ext page_url page
  if title.length == 0 || descr.length == 0 || link.length == 0 then
    (none,
      [⟨.warning, "Cannot find all data for " ++ title ++ " (" ++ page_url ++ ")"⟩])
  else
    match dateFromLink link with
    | some d => (some ⟨title, descr, link, some d⟩, [])
    | none =>
      (some ⟨title, descr, link, none⟩,
        [⟨.warning, "Cannot determine date of " ++ title ++ " (" ++ page_url ++ ")"⟩])

/-- The fixed marker `program_page = 'detail_emission.php'` (line 52). -/
def programPageMarker : String := "detail_emission.php"

/-- Python `needle in haystack` on strings: contiguous-substring containment. -/
def containsSub (needle : List Char) : List Char → Bool
  | [] => needle.isEmpty
  | a :: t => needle.isPrefixOf (a :: t) || containsSub needle t

/-- The test `program_page in page_url`: Python substring containment. -/
def isDetailUrl (page_url : String) : Bool :=
  containsSub programPageMarker.data page_url.data

/-- The `for page_link in soup_main.find_all('a')` loop (lines 62–103).
For each anchor: `page_link.attrs['href']` (raising `KeyError` when absent),
resolve against the start URL, and when the resolved URL contains the detail
marker, log, fetch the detail page (a fetch failure propagates) and run
`extract_program`.  Returns the collected records in document order (or the
first exception) together with the log entries emitted before any failure. -/
def processAnchors (ext : Ext) (fetch : String → Except PyErr Page)
    (url : String) : List Anchor → Except PyErr (List Program) × List LogEntry
  | [] => (.ok [], [])
  | a :: rest =>
    match a.href with
    | none => (.error .keyError, [])
    | some h =>
      let page_url := ext.ujoin url h
      if isDetailUrl page_url then
        match fetch page_url with
        | .error e => (.error e, [⟨.info, "Parsing " ++ page_url⟩])
        | .ok page =>
          let ex := extract_program ext page_url page
          let rec' := processAnchors ext fetch url rest
          (match rec'.1 with
            | .ok ps => .ok (ex.1.toList ++ ps)
            | .error e => .error e,
           ⟨.info, "Parsing " ++ page_url⟩ :: ex.2 ++ rec'.2)
      else processAnchors ext fetch url rest

/-- Embeds `get_programs` (lines 42–108): fetch the listing page, process every
anchor, log the record count, and return the records sorted by date
descending. -/
def get_programs (ext : Ext) (fetch : String → Except PyErr Page)
    (url : String) : Except PyErr (List Program) × List LogEntry :=
  match fetch url with
  | .error e => (.error e, [])
  | .ok mainPage =>
    match processAnchors ext fetch url mainPage.anchors with
    | (.ok ps, logs) =>
      (.ok (sortProgramsByDateDesc ps),
        logs ++ [⟨.info, toString ps.length ++ " programs fetched"⟩])
    | (.error e, logs) => (.error e, logs)

/-- Gregorian leap-year rule, as used by `datetime`. -/
def isLeap (y : Nat) : Bool :=
  y % 4 == 0 && (y % 100 != 0 || y % 400 == 0)

/-- Days in a month of the proleptic Gregorian calendar (`datetime`'s
`monthrange` validation). -/
def daysInMonth (y m : Nat) : Nat :=
  if m == 2 then (if isLeap y then 29 else 28)
  else if m == 4 || m == 6 || m == 9 || m == 11 then 30
  else 31

/-- The numeric value of an ASCII digit character. -/
def digitVal (c : Char) : Nat := c.toNat - 48

/-- Modelled from CPython's `_strptime`: the `%m` directive is the regex
`1[0-2]|0[1-9]|[1-9]` — a two-digit month 01–12, falling back (by regex
backtracking) to a single digit 1–9.  Returns the month and the remaining
input. -/
def readMonth : List Char → Option (Nat × List Char)
  | a :: b :: rest =>
    if a.isDigit && b.isDigit then
      let v := digitVal a * 10 + digitVal b
      if 1 ≤ v && v ≤ 12 then some (v, rest)
      else if 1 ≤ digitVal a && digitVal a ≤ 9 then some (digitVal a, b :: rest)
      else none
    else if a.isDigit && 1 ≤ digitVal a && digitVal a ≤ 9 then
      some (digitVal a, b :: rest)
    else none
  | [a] =>
    if a.isDigit && 1 ≤ digitVal a && digitVal a ≤ 9 then some (digitVal a, [])
    else none
  | [] => none

/-- Modelled from CPython's `_strptime`: the `%d` directive is the regex
`3[01]|[12]\d|0[1-9]|[1-9]` — a two-digit day 01–31, falling back to a single
digit 1–9. -/
def readDay : List Char → Option (Nat × List Char)
  | a :: b :: rest =>
    if a.isDigit && b.isDigit then
      let v := digitVal a * 10 + digitVal b
      if 1 ≤ v && v ≤ 31 then some (v, rest)
      else if 1 ≤ digitVal a && digitVal a ≤ 9 then some (digitVal a, b :: rest)
      else none
    else if a.isDigit && 1 ≤ digitVal a && digitVal a ≤ 9 then
      some (digitVal a, b :: rest)
    else none
  | [a] =>
    if a.isDigit && 1 ≤ digitVal a && digitVal a ≤ 9 then some (digitVal a, [])
    else none
  | [] => none

/-- Modelled from CPython's `_strptime` and the `datetime` docs:
`datetime.datetime.strptime(s, '%Y-%m-%d')`.  `%Y` consumes exactly four
digits, each `-` is literal, the whole string must be consumed, and the
resulting calendar date must be valid (`datetime.MINYEAR = 1`, day within the
month).  On success the time-of-day fields are zero (midnight). -/
def strptimeYmd (s : String) : Option Datetime :=
  match s.data with
  | y1 :: y2 :: y3 :: y4 :: dash1 :: rest =>
    if y1.isDigit && y2.isDigit && y3.isDigit && y4.isDigit && dash1 = '-' then
      match readMonth rest with
      | some (m, dash2 :: rest2) =>
        if dash2 = '-' then
          match readDay rest2 with
          | some (d, []) =>
            if 1 ≤ ((digitVal y1 * 10 + digitVal y2) * 10 + digitVal y3) * 10 +
                  digitVal y4 &&
                d ≤ daysInMonth (((digitVal y1 * 10 + digitVal y2) * 10 +
                  digitVal y3) * 10 + digitVal y4) m then
              some ⟨((digitVal y1 * 10 + digitVal y2) * 10 + digitVal y3) * 10 +
                digitVal y4, m, d, 0, 0, 0⟩
            else none
          | _ => none
        else none
      | _ => none
    else none
  | _ => none

/-- Models `datetime.datetime.strptime(item['date'], '%Y-%m-%d')` on the record's
date field: `strptime(None, ...)` raises `TypeError`; a string that does not
parse as a valid `%Y-%m-%d` date raises `ValueError`. -/
def itemDate : Option String → Except PyErr Datetime
  | none =>
    .error (.typeError "strptime() argument 1 must be str, not NoneType")
  | some s =>
    match strptimeYmd s with
    | some dt => .ok dt
    | none => .error (.valueError "time data does not match format")

/-- The `for item in items` loop of `build_rss_feed` (lines 123–134): one
`RSSItem` per record, with `guid = Guid(item['link'])` and
`pubDate = strptime(item['date'], '%Y-%m-%d')`; the first failing timestamp
parse aborts the loop. -/
def buildItems : List Program → Except PyErr (List RSSItem)
  | [] => .ok []
  | p :: ps =>
    match itemDate p.date with
    | .error e => .error e
    | .ok dt =>
      match buildItems ps with
      | .error e => .error e
      | .ok rest => .ok (⟨p.title, p.link, p.description, p.link, dt⟩ :: rest)

/-- Embeds `build_rss_feed` (lines 111–143): build the items, assemble the `RSS2`
feed with `lastBuildDate = datetime.datetime.now()` (passed in as `now`), and
write it to `filename`, truncating any existing file.  A failure while
building the items propagates before anything is written. -/
def build_rss_feed (title link description : String) (items : List Program)
    (filename : String) (now : Datetime) (fs : FS) : Except PyErr FS :=
  match buildItems items with
  | .error e => .error e
  | .ok rssItems =>
    .ok (writeFs fs filename ⟨title, link, description, now, rssItems⟩)

/-- The outcome of one process run: the exit code (Python's `main` never
re-raises, so the process always exits with status 0), the final filesystem,
and the emitted log entries. -/
structure RunResult where
  exit : Nat
  fs : FS
  logs : List LogEntry

/-- Embeds `main` (lines 146–153): run the pipeline; any exception is caught by the
broad `except Exception` handler, which logs a critical message and returns
normally. -/
def mainRun (ext : Ext) (fetch : String → Except PyErr Page)
    (osEnv : String → Option String) (file : FileConfig) (now : Datetime)
    (fs : FS) : RunResult :=
  match load_config osEnv file with
  | .error e =>
    ⟨0, fs, [⟨.critical, "Error occurred during process : " ++ e.str⟩]⟩
  | .ok config =>
    match get_programs ext fetch config.start_url with
    | (.error e, logs) =>
      ⟨0, fs, logs ++ [⟨.critical, "Error occurred during process : " ++ e.str⟩]⟩
    | (.ok programs, logs) =>
      match build_rss_feed config.program_title config.program_url
          config.program_desc programs config.output_file now fs with
      | .error e =>
        ⟨0, fs,
          logs ++ [⟨.critical, "Error occurred during process : " ++ e.str⟩]⟩
      | .ok fs' => ⟨0, fs', logs⟩

/-! ### Specification-side definitions

These follow the spec's words (not the source) and exist only to be compared
with the source-derived definitions above: a canonical `YYYY-MM-DD` string
and the chronological order on calendar dates. -/

/-- The ASCII character of a decimal digit. -/
def digitChar : Nat → Char
  | 0 => '0' | 1 => '1' | 2 => '2' | 3 => '3' | 4 => '4'
  | 5 => '5' | 6 => '6' | 7 => '7' | 8 => '8' | _ => '9'

/-- The canonical `YYYY-MM-DD` rendering of a calendar date (the spec's sort
key: four zero-padded year digits, two month digits, two day digits). -/
def dateString (y m d : Nat) : String :=
  ⟨[digitChar (y / 1000 % 10), digitChar (y / 100 % 10), digitChar (y / 10 % 10),
    digitChar (y % 10), '-', digitChar (m / 10 % 10), digitChar (m % 10), '-',
    digitChar (d / 10 % 10), digitChar (d % 10)]⟩

/-- Chronological order on calendar dates, per the spec: year, then month,
then day. -/
def chronLe (y1 m1 d1 y2 m2 d2 : Nat) : Prop :=
  y1 < y2 ∨ (y1 = y2 ∧ (m1 < m2 ∨ (m1 = m2 ∧ d1 ≤ d2)))

/-! ### Theorems -/

/-- Helper: an empty resolved value makes `load_config` fail. -/
theorem load_config_error_of_empty (osEnv : String → Option String)
    (file : FileConfig)
    (h : (mergeConfig osEnv file).values.any (fun v => v.length == 0) = true) :
    ∃ e, load_config osEnv file = .error e := by
  rcases List.any_eq_true.mp h with ⟨v, hv, hvp⟩
  unfold load_config
  have : ((mergeConfig osEnv file).values.find? (fun v => v.length == 0)).isSome := by
    rw [List.find?_isSome]
    exact ⟨v, hv, hvp⟩
  rcases Option.isSome_iff_exists.mp this with ⟨w, hw⟩
  exact ⟨formatConfigError w, by simp [hw]⟩

/-- C1: an empty resolved configuration value does make `load_config` raise
before any network activity, but the raised error is a `TypeError` from the
malformed format expression `'Incorrect configuration for %s : %s' % value`
(two specifiers, one argument), whose message does not name the offending
key.  Conjuncts: (1) concrete evaluation at a file config with an empty
`START_URL`; (2) any empty resolved value makes `load_config` fail; (3) when
`load_config` fails, the run result is independent of the network fetch
oracle — no network activity influences the outcome. -/
theorem c1_empty_config_raises_without_key :
    (load_config (fun _ => none) ⟨"", "out.xml", "t", "u", "d"⟩ =
      .error (.typeError "not enough arguments for format string"))
    ∧ (∀ (osEnv : String → Option String) (file : FileConfig),
        (mergeConfig osEnv file).values.any (fun v => v.length == 0) = true →
        ∃ e, load_config osEnv file = .error e)
    ∧ (∀ (ext : Ext) (fetch1 fetch2 : String → Except PyErr Page) osEnv file
        now fs e, load_config osEnv file = .error e →
        mainRun ext fetch1 osEnv file now fs = mainRun ext fetch2 osEnv file now fs) := by
  refine ⟨rfl, load_config_error_of_empty, ?_⟩
  intro ext fetch1 fetch2 osEnv file now fs e he
  unfold mainRun
  rw [he]

/-- C1 witness: the concrete failing input, with both hypotheses discharged. -/
theorem c1_witness :
    ∃ e, load_config (fun _ => none) ⟨"", "out.xml", "t", "u", "d"⟩ = .error e :=
  c1_empty_config_raises_without_key.2.1 (fun _ => none)
    ⟨"", "out.xml", "t", "u", "d"⟩ (by decide)

/-- C7 counterexample: with `START_URL` set in the environment to the empty
string, the claim says the config-file value `"http://file"` is used; the
code (`os.getenv('START_URL', file_value)`) uses the environment's empty
string instead. -/
theorem c7_counterexample :
    (mergeConfig (fun k => if k = "START_URL" then some "" else none)
        ⟨"http://file", "out.xml", "t", "u", "d"⟩).start_url ≠
      (⟨"http://file", "out.xml", "t", "u", "d"⟩ : FileConfig).start_url := by
  decide

/-- C7 (amended): for each of the five recognized keys, the environment
variable overrides the config-file value whenever it is set — including when
it is set to the empty string; only when it is unset is the config-file
value used. -/
theorem c7_env_overrides_when_set (osEnv : String → Option String)
    (file : FileConfig) :
    ((∀ v, osEnv "START_URL" = some v → (mergeConfig osEnv file).start_url = v)
      ∧ (osEnv "START_URL" = none →
        (mergeConfig osEnv file).start_url = file.start_url))
    ∧ ((∀ v, osEnv "OUTPUT_FILE" = some v →
        (mergeConfig osEnv file).output_file = v)
      ∧ (osEnv "OUTPUT_FILE" = none →
        (mergeConfig osEnv file).output_file = file.output_file))
    ∧ ((∀ v, osEnv "PROGRAM_TITLE" = some v →
        (mergeConfig osEnv file).program_title = v)
      ∧ (osEnv "PROGRAM_TITLE" = none →
        (mergeConfig osEnv file).program_title = file.program_title))
    ∧ ((∀ v, osEnv "PROGRAM_URL" = some v →
        (mergeConfig osEnv file).program_url = v)
      ∧ (osEnv "PROGRAM_URL" = none →
        (mergeConfig osEnv file).program_url = file.program_url))
    ∧ ((∀ v, osEnv "PROGRAM_DESC" = some v →
        (mergeConfig osEnv file).program_desc = v)
      ∧ (osEnv "PROGRAM_DESC" = none →
        (mergeConfig osEnv file).program_desc = file.program_desc)) := by
  refine ⟨⟨?_, ?_⟩, ⟨?_, ?_⟩, ⟨?_, ?_⟩, ⟨?_, ?_⟩, ⟨?_, ?_⟩⟩ <;>
    (intro h; try intro hh) <;>
    simp_all [mergeConfig, getenv]

/-- C7 witness: the environment value (here set to the empty string) is the
merged value for `START_URL`. -/
theorem c7_witness :
    (mergeConfig (fun k => if k = "START_URL" then some "" else none)
      ⟨"http://file", "out.xml", "t", "u", "d"⟩).start_url = "" :=
  (c7_env_overrides_when_set
    (fun k => if k = "START_URL" then some "" else none)
    ⟨"http://file", "out.xml", "t", "u", "d"⟩).1.1 "" (by decide)

/-- Helper: a record with an absent date makes the item loop of
`build_rss_feed` raise (the `strptime(None, ...)` `TypeError`). -/
theorem buildItems_error_of_absent (items : List Program)
    (h : ∃ r ∈ items, r.date = none) : ∃ e, buildItems items = .error e := by
  induction items with
  | nil => simp at h
  | cons p ps ih =>
    rcases h with ⟨r, hr, hd⟩
    rcases List.mem_cons.mp hr with h1 | h2
    · subst h1
      exact ⟨.typeError "strptime() argument 1 must be str, not NoneType",
        by simp [buildItems, hd, itemDate]⟩
    · cases hdate : itemDate p.date with
      | error e' => exact ⟨e', by simp [buildItems, hdate]⟩
      | ok dt =>
        obtain ⟨e, he⟩ := ih ⟨r, h2, hd⟩
        exact ⟨e, by simp [buildItems, hdate, he]⟩

/-- C2: a record sequence containing a record with an absent date makes the
feed serializer crash (timestamp parsing of the absent value), and
contrapositively every record of a successfully written feed has a
non-absent date. -/
theorem c2_absent_date_crashes_serializer :
    (∀ (t l d : String) (items : List Program) (fname : String) (now : Datetime)
      (fs : FS), (∃ r ∈ items, r.date = none) →
      ∃ e, build_rss_feed t l d items fname now fs = .error e)
    ∧ (∀ (t l d : String) (items : List Program) (fname : String)
      (now : Datetime) (fs : FS) (fs' : FS),
      build_rss_feed t l d items fname now fs = .ok fs' →
      ∀ r ∈ items, r.date ≠ none) := by
  constructor
  · intro t l d items fname now fs h
    obtain ⟨e, he⟩ := buildItems_error_of_absent items h
    exact ⟨e, by simp [build_rss_feed, he]⟩
  · intro t l d items fname now fs fs' hok r hr hd
    obtain ⟨e, he⟩ := buildItems_error_of_absent items ⟨r, hr, hd⟩
    simp [build_rss_feed, he] at hok

/-- C2 witness: a concrete undated record crashes the serializer. -/
theorem c2_witness :
    ∃ e, build_rss_feed "t" "l" "d" [⟨"title", "desc", "link", none⟩] "out.xml"
      ⟨2024, 1, 1, 0, 0, 0⟩ (fun _ => none) = .error e :=
  c2_absent_date_crashes_serializer.1 "t" "l" "d"
    [⟨"title", "desc", "link", none⟩] "out.xml" ⟨2024, 1, 1, 0, 0, 0⟩
    (fun _ => none) ⟨⟨"title", "desc", "link", none⟩, by simp, rfl⟩

/-- C3: a detail page for which title, description or audio link is empty
after extraction yields no record (never a partial one), logs a warning, and
the anchor loop continues with the remaining pages, producing the same
outcome as if the page had not been there. -/
theorem c3_incomplete_record_skipped (ext : Ext)
    (fetch : String → Except PyErr Page) (url : String) (a : Anchor)
    (rest : List Anchor) (h : String) (page : Page)
    (hhref : a.href = some h)
    (hdetail : isDetailUrl (ext.ujoin url h) = true)
    (hfetch : fetch (ext.ujoin url h) = .ok page)
    (hempty : extractTitle ext page = "" ∨ extractDescription ext page = "" ∨
      extractLink ext (ext.ujoin url h) page = "") :
    extract_program ext (ext.ujoin url h) page =
      (none, [⟨.warning, "Cannot find all data for " ++ extractTitle ext page ++
        " (" ++ ext.ujoin url h ++ ")"⟩])
    ∧ (processAnchors ext fetch url (a :: rest)).1 =
      (processAnchors ext fetch url rest).1 := by
  have hcond : ((extractTitle ext page).length == 0 ||
      (extractDescription ext page).length == 0 ||
      (extractLink ext (ext.ujoin url h) page).length == 0) = true := by
    rcases hempty with he | he | he <;> rw [he] <;> simp
  have hex : extract_program ext (ext.ujoin url h) page =
      (none, [⟨.warning, "Cannot find all data for " ++ extractTitle ext page ++
        " (" ++ ext.ujoin url h ++ ")"⟩]) := by
    unfold extract_program
    rw [if_pos hcond]
  refine ⟨hex, ?_⟩
  simp only [processAnchors, hhref, hdetail, hfetch, hex, if_true]
  cases hrec : (processAnchors ext fetch url rest).1 <;> simp [hrec]

/-- C3 witness: a detail page with no divs at all (hence empty title) is
skipped and the loop outcome matches the loop without it. -/
theorem c3_witness :
    extract_program ⟨id, fun _ r => r⟩ "http://x/detail_emission.php?id=1"
      ⟨[], []⟩ =
      (none, [⟨.warning, "Cannot find all data for " ++
        extractTitle ⟨id, fun _ r => r⟩ ⟨[], []⟩ ++
        " (" ++ "http://x/detail_emission.php?id=1" ++ ")"⟩])
    ∧ (processAnchors ⟨id, fun _ r => r⟩ (fun _ => .ok ⟨[], []⟩) "http://main"
        (⟨some "http://x/detail_emission.php?id=1"⟩ :: [])).1 =
      (processAnchors ⟨id, fun _ r => r⟩ (fun _ => .ok ⟨[], []⟩) "http://main"
        []).1 :=
  c3_incomplete_record_skipped ⟨id, fun _ r => r⟩ (fun _ => .ok ⟨[], []⟩)
    "http://main" ⟨some "http://x/detail_emission.php?id=1"⟩ []
    "http://x/detail_emission.php?id=1" ⟨[], []⟩ rfl (by decide) rfl
    (Or.inl rfl)

/-- Helper: a non-empty string has non-zero length. -/
theorem length_ne_zero_of_ne_empty (s : String) (h : s ≠ "") : s.length ≠ 0 := by
  intro h0
  apply h
  apply String.ext
  have : s.data.length = 0 := h0
  simpa using List.length_eq_zero.mp this

/-- Helper: the date pattern is anchored at the end of the link and all its
groups have fixed width, so only the last 15 characters matter: prepending
anything to a string of at least 15 characters does not change the result. -/
theorem dateFromLink_append_suffix (s t : String) (h : 15 ≤ t.data.length) :
    dateFromLink (s ++ t) = dateFromLink t := by
  have hd : (s ++ t).data = s.data ++ t.data := String.data_append s t
  have hlen : (s ++ t).data.length = s.data.length + t.data.length := by
    rw [hd, List.length_append]
  unfold dateFromLink
  rw [if_neg (by omega), if_neg (by omega), hlen, hd]
  have hidx : s.data.length + t.data.length - 15 =
      s.data.length + (t.data.length - 15) := by omega
  rw [hidx, List.drop_append]

/-- Helper: a link ending in `_2023_07_04.mp3` derives the date
`2023-07-04`, whatever precedes the suffix. -/
theorem dateFromLink_date_suffix (s : String) :
    dateFromLink (s ++ "_2023_07_04.mp3") = some "2023-07-04" :=
  (dateFromLink_append_suffix s "_2023_07_04.mp3" (by decide)).trans rfl

/-- Helper: the date pattern matches `mp3` case-insensitively, so an
uppercase `.MP3` filename still yields the date. -/
theorem dateFromLink_date_suffix_upper (s : String) :
    dateFromLink (s ++ "_2023_07_04.MP3") = some "2023-07-04" :=
  (dateFromLink_append_suffix s "_2023_07_04.MP3" (by decide)).trans rfl

/-- Helper: a link ending in `_invalid.mp3` never matches the date pattern,
whatever precedes the suffix. -/
theorem dateFromLink_invalid_suffix (s : String) :
    dateFromLink (s ++ "_invalid.mp3") = none := by
  have hd : (s ++ "_invalid.mp3").data = s.data ++ "_invalid.mp3".data :=
    String.data_append s "_invalid.mp3"
  have hlen : (s ++ "_invalid.mp3").data.length = s.data.length + 12 := by
    rw [hd, List.length_append]; rfl
  by_cases h3 : s.data.length < 3
  · unfold dateFromLink
    rw [if_pos (show (s ++ "_invalid.mp3").data.length < 15 by omega)]
  · unfold dateFromLink
    rw [if_neg (show ¬ (s ++ "_invalid.mp3").data.length < 15 by omega)]
    obtain ⟨a, b, c, habc⟩ : ∃ a b c, s.data.drop (s.data.length - 3) = [a, b, c] := by
      apply List.length_eq_three.mp
      rw [List.length_drop]; omega
    have hdrop : (s ++ "_invalid.mp3").data.drop
        ((s ++ "_invalid.mp3").data.length - 15) = [a, b, c] ++ "_invalid.mp3".data := by
      rw [hlen, hd, List.drop_append_eq_append_drop]
      rw [show s.data.length + 12 - 15 = s.data.length - 3 by omega, habc]
      rw [show s.data.length - 3 - s.data.length = 0 by omega, List.drop_zero]
    rw [hdrop]
    simp [show ('_').isDigit = false from rfl]

/-- C4: for a complete record the date field is exactly
`dateFromLink link` (the `..._YYYY_MM_DD.mp3` pattern applied to the audio
link): a link ending in `_2023_07_04.mp3` derives `2023-07-04`; a link
ending in `_invalid.mp3` derives no date, in which case a warning is logged
and the record is still kept. -/
theorem c4_date_derived_from_filename :
    (∀ (ext : Ext) (page_url : String) (page : Page),
      extractTitle ext page ≠ "" → extractDescription ext page ≠ "" →
      extractLink ext page_url page ≠ "" →
      (extract_program ext page_url page).1 =
        some ⟨extractTitle ext page, extractDescription ext page,
          extractLink ext page_url page,
          dateFromLink (extractLink ext page_url page)⟩
      ∧ (dateFromLink (extractLink ext page_url page) = none →
        (extract_program ext page_url page).2 =
          [⟨.warning, "Cannot determine date of " ++ extractTitle ext page ++
            " (" ++ page_url ++ ")"⟩]))
    ∧ (∀ s : String, dateFromLink (s ++ "_2023_07_04.mp3") = some "2023-07-04")
    ∧ (∀ s : String, dateFromLink (s ++ "_invalid.mp3") = none) := by
  refine ⟨?_, dateFromLink_date_suffix, dateFromLink_invalid_suffix⟩
  intro ext page_url page hT hD hL
  have h1 := length_ne_zero_of_ne_empty _ hT
  have h2 := length_ne_zero_of_ne_empty _ hD
  have h3 := length_ne_zero_of_ne_empty _ hL
  have hcond : ((extractTitle ext page).length == 0 ||
      (extractDescription ext page).length == 0 ||
      (extractLink ext page_url page).length == 0) = false := by
    simp [h1, h2, h3]
  constructor
  · simp only [extract_program, hcond, Bool.false_eq_true, if_false]
    cases hdl : dateFromLink (extractLink ext page_url page) <;> simp [hdl]
  · intro hnone
    simp only [extract_program, hcond, Bool.false_eq_true, if_false, hnone]

/-- C4 witness: a concrete complete detail page whose audio link does not
match the date pattern keeps the record with an absent date and logs the
warning; the example suffixes evaluate as stated. -/
theorem c4_witness :
    ((extract_program ⟨id, fun _ r => r⟩ "http://p"
        ⟨[⟨some "x.mp3"⟩], [⟨some "titre", "T"⟩, ⟨some "emission", "D"⟩]⟩).1 =
      some ⟨extractTitle ⟨id, fun _ r => r⟩
          ⟨[⟨some "x.mp3"⟩], [⟨some "titre", "T"⟩, ⟨some "emission", "D"⟩]⟩,
        extractDescription ⟨id, fun _ r => r⟩
          ⟨[⟨some "x.mp3"⟩], [⟨some "titre", "T"⟩, ⟨some "emission", "D"⟩]⟩,
        extractLink ⟨id, fun _ r => r⟩ "http://p"
          ⟨[⟨some "x.mp3"⟩], [⟨some "titre", "T"⟩, ⟨some "emission", "D"⟩]⟩,
        dateFromLink (extractLink ⟨id, fun _ r => r⟩ "http://p"
          ⟨[⟨some "x.mp3"⟩], [⟨some "titre", "T"⟩, ⟨some "emission", "D"⟩]⟩)⟩
      ∧ (dateFromLink (extractLink ⟨id, fun _ r => r⟩ "http://p"
          ⟨[⟨some "x.mp3"⟩], [⟨some "titre", "T"⟩, ⟨some "emission", "D"⟩]⟩) = none →
        (extract_program ⟨id, fun _ r => r⟩ "http://p"
          ⟨[⟨some "x.mp3"⟩], [⟨some "titre", "T"⟩, ⟨some "emission", "D"⟩]⟩).2 =
          [⟨.warning, "Cannot determine date of " ++
            extractTitle ⟨id, fun _ r => r⟩
              ⟨[⟨some "x.mp3"⟩], [⟨some "titre", "T"⟩, ⟨some "emission", "D"⟩]⟩ ++
            " (" ++ "http://p" ++ ")"⟩]))
    ∧ dateFromLink ("http://host/audio" ++ "_2023_07_04.mp3") = some "2023-07-04" :=
  ⟨c4_date_derived_from_filename.1 ⟨id, fun _ r => r⟩ "http://p"
      ⟨[⟨some "x.mp3"⟩], [⟨some "titre", "T"⟩, ⟨some "emission", "D"⟩]⟩
      (by decide) (by decide) (by decide),
    c4_date_derived_from_filename.2.1 "http://host/audio"⟩

/-- C9: `page_link.attrs['href']` raises `KeyError` on the first anchor of
the listing without an `href` attribute, aborting the run no matter what
follows that anchor (the conclusion does not depend on `post`); conversely,
when every anchor carries an `href` (and fetching never fails), the anchor
loop is total. -/
theorem c9_anchor_without_href_keyerror :
    (∀ (ext : Ext) (fetch : String → Except PyErr Page) (url : String)
      (pre post : List Anchor),
      (∀ x ∈ pre, ∃ hx, x.href = some hx) →
      (∀ u, ∃ p, fetch u = .ok p) →
      (processAnchors ext fetch url (pre ++ ⟨none⟩ :: post)).1 =
        .error .keyError)
    ∧ (∀ (ext : Ext) (fetch : String → Except PyErr Page) (url : String)
      (anchors : List Anchor),
      (∀ x ∈ anchors, ∃ hx, x.href = some hx) →
      (∀ u, ∃ p, fetch u = .ok p) →
      ∃ ps, (processAnchors ext fetch url anchors).1 = .ok ps) := by
  constructor
  · intro ext fetch url pre post hpre hfetch
    induction pre with
    | nil => simp [processAnchors]
    | cons x pre' ih =>
      obtain ⟨hx, hhx⟩ := hpre x (List.mem_cons_self x pre')
      have ih' := ih (fun y hy => hpre y (List.mem_cons_of_mem x hy))
      by_cases hdet : isDetailUrl (ext.ujoin url hx) = true
      · obtain ⟨p, hp⟩ := hfetch (ext.ujoin url hx)
        simp only [List.cons_append, processAnchors, hhx, hdet, if_true, hp]
        simp [ih']
      · simp only [List.cons_append, processAnchors, hhx, hdet, if_false]
        exact ih'
  · intro ext fetch url anchors hall hfetch
    induction anchors with
    | nil => exact ⟨[], rfl⟩
    | cons x rest ih =>
      obtain ⟨hx, hhx⟩ := hall x (List.mem_cons_self x rest)
      obtain ⟨ps, hps⟩ := ih (fun y hy => hall y (List.mem_cons_of_mem x hy))
      by_cases hdet : isDetailUrl (ext.ujoin url hx) = true
      · obtain ⟨p, hp⟩ := hfetch (ext.ujoin url hx)
        refine ⟨(extract_program ext (ext.ujoin url hx) p).1.toList ++ ps, ?_⟩
        simp only [processAnchors, hhx, hdet, if_true, hp]
        simp [hps]
      · refine ⟨ps, ?_⟩
        simp only [processAnchors, hhx, hdet, if_false]
        exact hps

/-- C9 witness: a listing with one good anchor followed by an anchor without
`href` ends in `KeyError`. -/
theorem c9_witness :
    (processAnchors ⟨id, fun _ r => r⟩ (fun _ => .ok ⟨[], []⟩) "http://main"
      ([⟨some "http://x/detail_emission.php?id=1"⟩] ++ ⟨none⟩ :: [])).1 =
      .error .keyError :=
  c9_anchor_without_href_keyerror.1 ⟨id, fun _ r => r⟩ (fun _ => .ok ⟨[], []⟩)
    "http://main" [⟨some "http://x/detail_emission.php?id=1"⟩] []
    (by
      rintro x hx
      rcases List.mem_singleton.mp hx with rfl
      exact ⟨"http://x/detail_emission.php?id=1", rfl⟩)
    (fun u => ⟨⟨[], []⟩, rfl⟩)

/-- Helper: the audio-link pattern `.*mp3$` is compiled without
`re.IGNORECASE`, so a href ending in `.MP3` never matches. -/
theorem mp3Pattern_MP3_suffix (s : String) : mp3Pattern (s ++ ".MP3") = false := by
  unfold mp3Pattern
  rw [String.data_append]
  simp only [List.isSuffixOf, List.reverse_append]
  simp [List.isPrefixOf, show (('p' : Char) == 'P') = false from rfl]

/-- C10: audio-link selection is case-sensitive while date derivation is
case-insensitive.  Conjuncts: (1) when no anchor href matches the lowercase
`mp3` pattern the extracted link stays empty; (2) an empty link makes the
record be discarded as incomplete; (3) a href ending in uppercase `.MP3`
does not match the link pattern; (4) yet the date pattern does match an
uppercase `..._2023_07_04.MP3` filename. -/
theorem c10_link_match_case_sensitive :
    (∀ (ext : Ext) (page_url : String) (page : Page),
      (∀ a ∈ page.anchors, anchorMp3 a = false) →
      extractLink ext page_url page = "")
    ∧ (∀ (ext : Ext) (page_url : String) (page : Page),
      extractLink ext page_url page = "" →
      (extract_program ext page_url page).1 = none)
    ∧ (∀ s : String, mp3Pattern (s ++ ".MP3") = false)
    ∧ (∀ s : String, dateFromLink (s ++ "_2023_07_04.MP3") = some "2023-07-04") := by
  refine ⟨?_, ?_, mp3Pattern_MP3_suffix, dateFromLink_date_suffix_upper⟩
  · intro ext page_url page hall
    unfold extractLink
    rw [List.find?_eq_none.mpr (fun a ha => by simp [hall a ha])]
  · intro ext page_url page hlink
    have hcond : ((extractTitle ext page).length == 0 ||
        (extractDescription ext page).length == 0 ||
        (extractLink ext page_url page).length == 0) = true := by
      rw [hlink]; simp
    simp only [extract_program, hcond, if_true]

/-- C10 witness: a detail page whose only audio anchor ends in `.MP3` has an
empty extracted link and is discarded, while the same filename still matches
the date pattern. -/
theorem c10_witness :
    extractLink ⟨id, fun _ r => r⟩ "http://p"
      ⟨[⟨some "http://x/audio_2023_07_04.MP3"⟩],
        [⟨some "titre", "T"⟩, ⟨some "emission", "D"⟩]⟩ = ""
    ∧ (extract_program ⟨id, fun _ r => r⟩ "http://p"
        ⟨[⟨some "http://x/audio_2023_07_04.MP3"⟩],
          [⟨some "titre", "T"⟩, ⟨some "emission", "D"⟩]⟩).1 = none
    ∧ dateFromLink ("http://x/audio" ++ "_2023_07_04.MP3") = some "2023-07-04" :=
  ⟨c10_link_match_case_sensitive.1 ⟨id, fun _ r => r⟩ "http://p"
      ⟨[⟨some "http://x/audio_2023_07_04.MP3"⟩],
        [⟨some "titre", "T"⟩, ⟨some "emission", "D"⟩]⟩ (by decide),
    c10_link_match_case_sensitive.2.1 ⟨id, fun _ r => r⟩ "http://p"
      ⟨[⟨some "http://x/audio_2023_07_04.MP3"⟩],
        [⟨some "titre", "T"⟩, ⟨some "emission", "D"⟩]⟩
      (c10_link_match_case_sensitive.1 ⟨id, fun _ r => r⟩ "http://p"
        ⟨[⟨some "http://x/audio_2023_07_04.MP3"⟩],
          [⟨some "titre", "T"⟩, ⟨some "emission", "D"⟩]⟩ (by decide)),
    c10_link_match_case_sensitive.2.2.2 "http://x/audio"⟩

/-- C8: a network failure on the listing page or on any detail page aborts
the whole run (there is a single fetch attempt per URL — the failure value
propagates unchanged), no feed file is written, and the top-level entry
point catches the exception, logs it at critical level, and exits with
status 0.  Conjuncts: (1) a failing listing fetch is `get_programs`'s
result; (2) a failing detail fetch after well-formed, fetchable anchors is
the loop's result; (3) every run exits with status 0; (4) when the pipeline
raises after configuration, `main` leaves the filesystem untouched and
appends a single critical log entry. -/
theorem c8_network_error_aborts_run :
    (∀ (ext : Ext) (fetch : String → Except PyErr Page) (url m : String),
      fetch url = .error (.network m) →
      get_programs ext fetch url = (.error (.network m), []))
    ∧ (∀ (ext : Ext) (fetch : String → Except PyErr Page) (url : String)
      (pre : List Anchor) (a : Anchor) (post : List Anchor) (hA m : String),
      (∀ x ∈ pre, ∃ hx, x.href = some hx ∧
        (isDetailUrl (ext.ujoin url hx) = true →
          ∃ p, fetch (ext.ujoin url hx) = .ok p)) →
      a.href = some hA → isDetailUrl (ext.ujoin url hA) = true →
      fetch (ext.ujoin url hA) = .error (.network m) →
      (processAnchors ext fetch url (pre ++ a :: post)).1 =
        .error (.network m))
    ∧ (∀ (ext : Ext) (fetch : String → Except PyErr Page)
      (osEnv : String → Option String) (file : FileConfig) (now : Datetime)
      (fs : FS), (mainRun ext fetch osEnv file now fs).exit = 0)
    ∧ (∀ (ext : Ext) (fetch : String → Except PyErr Page)
      (osEnv : String → Option String) (file : FileConfig) (now : Datetime)
      (fs : FS) (config : Config) (e : PyErr) (logs : List LogEntry),
      load_config osEnv file = .ok config →
      get_programs ext fetch config.start_url = (.error e, logs) →
      mainRun ext fetch osEnv file now fs =
        ⟨0, fs, logs ++
          [⟨.critical, "Error occurred during process : " ++ e.str⟩]⟩) := by
  refine ⟨?_, ?_, ?_, ?_⟩
  · intro ext fetch url m herr
    simp only [get_programs, herr]
  · intro ext fetch url pre a post hA m hpre hhA hdet herr
    induction pre with
    | nil =>
      simp only [List.nil_append, processAnchors, hhA, hdet, if_true, herr]
    | cons x pre' ih =>
      obtain ⟨hx, hhx, hfx⟩ := hpre x (List.mem_cons_self x pre')
      have ih' := ih (fun y hy => hpre y (List.mem_cons_of_mem x hy))
      by_cases hdx : isDetailUrl (ext.ujoin url hx) = true
      · obtain ⟨p, hp⟩ := hfx hdx
        simp only [List.cons_append, processAnchors, hhx, hdx, if_true, hp]
        simp [ih']
      · simp only [List.cons_append, processAnchors, hhx, hdx, if_false]
        exact ih'
  · intro ext fetch osEnv file now fs
    unfold mainRun
    split
    · rfl
    · split
      · rfl
      · split <;> rfl
  · intro ext fetch osEnv file now fs config e logs hlc hgp
    simp only [mainRun, hlc, hgp]

/-- C8 witness: with a network oracle that fails on every URL, the listing
fetch fails, `get_programs` returns that failure, and `main` exits 0 with
the filesystem untouched and a critical log entry. -/
theorem c8_witness :
    get_programs ⟨id, fun _ r => r⟩ (fun _ => .error (.network "boom"))
      "http://s" = (.error (.network "boom"), [])
    ∧ mainRun ⟨id, fun _ r => r⟩ (fun _ => .error (.network "boom"))
      (fun _ => none) ⟨"http://s", "out.xml", "t", "u", "d"⟩
      ⟨2024, 1, 1, 0, 0, 0⟩ (fun _ => none) =
      ⟨0, fun _ => none, [] ++
        [⟨.critical, "Error occurred during process : " ++
          (PyErr.network "boom").str⟩]⟩ :=
  ⟨c8_network_error_aborts_run.1 ⟨id, fun _ r => r⟩
      (fun _ => .error (.network "boom")) "http://s" "boom" rfl,
    c8_network_error_aborts_run.2.2.2 ⟨id, fun _ r => r⟩
      (fun _ => .error (.network "boom")) (fun _ => none)
      ⟨"http://s", "out.xml", "t", "u", "d"⟩ ⟨2024, 1, 1, 0, 0, 0⟩
      (fun _ => none) ⟨"http://s", "out.xml", "t", "u", "d"⟩
      (.network "boom") [] rfl
      (c8_network_error_aborts_run.1 ⟨id, fun _ r => r⟩
        (fun _ => .error (.network "boom")) "http://s" "boom" rfl)⟩

/-- Helper: Python's lexicographic string order is total. -/
theorem pyStrLe_total (a b : List Char) : (pyStrLe a b || pyStrLe b a) = true := by
  induction a generalizing b with
  | nil => simp [pyStrLe]
  | cons x xs ih =>
    cases b with
    | nil => simp [pyStrLe]
    | cons y ys =>
      have hih := ih ys
      simp only [pyStrLe, Bool.or_eq_true, Bool.and_eq_true, decide_eq_true_eq,
        beq_iff_eq] at hih ⊢
      rcases Nat.lt_trichotomy x.toNat y.toNat with h | h | h
      · exact Or.inl (Or.inl h)
      · rcases hih with h2 | h2
        · exact Or.inl (Or.inr ⟨h, h2⟩)
        · exact Or.inr (Or.inr ⟨h.symm, h2⟩)
      · exact Or.inr (Or.inl h)

/-- Helper: Python's lexicographic string order is transitive. -/
theorem pyStrLe_trans (a b c : List Char) (h1 : pyStrLe a b = true)
    (h2 : pyStrLe b c = true) : pyStrLe a c = true := by
  induction a generalizing b c with
  | nil => simp [pyStrLe]
  | cons x xs ih =>
    cases b with
    | nil => simp [pyStrLe] at h1
    | cons y ys =>
      cases c with
      | nil => simp [pyStrLe] at h2
      | cons z zs =>
        simp only [pyStrLe, Bool.or_eq_true, Bool.and_eq_true,
          decide_eq_true_eq, beq_iff_eq] at h1 h2 ⊢
        rcases h1 with h1 | ⟨h1e, h1r⟩ <;> rcases h2 with h2 | ⟨h2e, h2r⟩
        · exact Or.inl (by omega)
        · exact Or.inl (by omega)
        · exact Or.inl (by omega)
        · exact Or.inr ⟨by omega, ih ys zs h1r h2r⟩

/-- Helper: the date-key comparison is total. -/
theorem dateLe_total (x y : Option String) : (dateLe x y || dateLe y x) = true := by
  cases x with
  | none => simp [dateLe]
  | some a =>
    cases y with
    | none => simp [dateLe]
    | some b =>
      simp only [dateLe]
      exact pyStrLe_total a.data b.data

/-- Helper: the date-key comparison is transitive. -/
theorem dateLe_trans (x y z : Option String) (h1 : dateLe x y = true)
    (h2 : dateLe y z = true) : dateLe x z = true := by
  cases x with
  | none => simp [dateLe]
  | some a =>
    cases y with
    | none => simp [dateLe] at h1
    | some b =>
      cases z with
      | none => simp [dateLe] at h2
      | some c =>
        simp only [dateLe] at h1 h2 ⊢
        exact pyStrLe_trans a.data b.data c.data h1 h2

/-- Helper: the code point of a decimal digit character. -/
theorem toNat_digitChar (j : Nat) (h : j < 10) : (digitChar j).toNat = 48 + j := by
  interval_cases j <;> rfl

/-- Helper: the code point of `digitChar (k % 10)`. -/
theorem toNat_digitChar_mod (k : Nat) : (digitChar (k % 10)).toNat = 48 + k % 10 :=
  toNat_digitChar _ (Nat.mod_lt _ (by omega))

/-- Helper: the characters of the canonical `YYYY-MM-DD` rendering. -/
theorem dateString_data (y m d : Nat) : (dateString y m d).data =
    [digitChar (y / 1000 % 10), digitChar (y / 100 % 10), digitChar (y / 10 % 10),
      digitChar (y % 10), '-', digitChar (m / 10 % 10), digitChar (m % 10), '-',
      digitChar (d / 10 % 10), digitChar (d % 10)] := rfl

/-- Helper: on zero-padded `YYYY-MM-DD` renderings, Python's lexicographic
string comparison agrees with chronological order. -/
theorem dateString_le_iff_chron (y1 m1 d1 y2 m2 d2 : Nat) (hy1 : y1 < 10000)
    (hm1 : m1 < 100) (hd1 : d1 < 100) (hy2 : y2 < 10000) (hm2 : m2 < 100)
    (hd2 : d2 < 100) :
    (pyStrLe (dateString y1 m1 d1).data (dateString y2 m2 d2).data = true ↔
      chronLe y1 m1 d1 y2 m2 d2) := by
  simp only [dateString_data, pyStrLe, toNat_digitChar_mod,
    show ('-').toNat = 45 from rfl, Bool.or_eq_true, Bool.and_eq_true,
    decide_eq_true_eq, beq_iff_eq, chronLe]
  obtain ⟨A1, B1, C1, E1, hyeq1, hybnd1, hA1, hB1, hC1, hE1⟩ :
      ∃ A B C E, y1 = 1000 * A + 100 * B + 10 * C + E ∧
        (A < 10 ∧ B < 10 ∧ C < 10 ∧ E < 10) ∧
        y1 / 1000 % 10 = A ∧ y1 / 100 % 10 = B ∧ y1 / 10 % 10 = C ∧
        y1 % 10 = E :=
    ⟨_, _, _, _, by omega, by omega, rfl, rfl, rfl, rfl⟩
  obtain ⟨A2, B2, C2, E2, hyeq2, hybnd2, hA2, hB2, hC2, hE2⟩ :
      ∃ A B C E, y2 = 1000 * A + 100 * B + 10 * C + E ∧
        (A < 10 ∧ B < 10 ∧ C < 10 ∧ E < 10) ∧
        y2 / 1000 % 10 = A ∧ y2 / 100 % 10 = B ∧ y2 / 10 % 10 = C ∧
        y2 % 10 = E :=
    ⟨_, _, _, _, by omega, by omega, rfl, rfl, rfl, rfl⟩
  obtain ⟨F1, G1, hmeq1, hmbnd1, hF1, hG1⟩ :
      ∃ F G, m1 = 10 * F + G ∧ (F < 10 ∧ G < 10) ∧
        m1 / 10 % 10 = F ∧ m1 % 10 = G :=
    ⟨_, _, by omega, by omega, rfl, rfl⟩
  obtain ⟨F2, G2, hmeq2, hmbnd2, hF2, hG2⟩ :
      ∃ F G, m2 = 10 * F + G ∧ (F < 10 ∧ G < 10) ∧
        m2 / 10 % 10 = F ∧ m2 % 10 = G :=
    ⟨_, _, by omega, by omega, rfl, rfl⟩
  obtain ⟨H1, I1, hdeq1, hdbnd1, hH1, hI1⟩ :
      ∃ H I, d1 = 10 * H + I ∧ (H < 10 ∧ I < 10) ∧
        d1 / 10 % 10 = H ∧ d1 % 10 = I :=
    ⟨_, _, by omega, by omega, rfl, rfl⟩
  obtain ⟨H2, I2, hdeq2, hdbnd2, hH2, hI2⟩ :
      ∃ H I, d2 = 10 * H + I ∧ (H < 10 ∧ I < 10) ∧
        d2 / 10 % 10 = H ∧ d2 % 10 = I :=
    ⟨_, _, by omega, by omega, rfl, rfl⟩
  rw [hA1, hB1, hC1, hE1, hA2, hB2, hC2, hE2, hF1, hG1, hF2, hG2, hH1, hI1,
    hH2, hI2]
  clear hA1 hB1 hC1 hE1 hA2 hB2 hC2 hE2 hF1 hG1 hF2 hG2 hH1 hI1 hH2 hI2
  subst hyeq1 hyeq2 hmeq1 hmeq2 hdeq1 hdeq2
  simp only [add_lt_add_iff_left, add_right_inj, lt_self_iff_false, false_or,
    true_and]
  simp only [and_true, ← le_iff_lt_or_eq]
  omega

/-- C5: the aggregator's output is sorted descending by the date key (every
later record's date is `pyStrLe`-below every earlier one's) and is a
permutation of its input; on `YYYY-MM-DD` keys the lexicographic comparison
coincides with chronological order; and the two example lists of the spec
sort as stated. -/
theorem c5_aggregator_sorts_descending :
    (∀ ps : List Program, (∀ p ∈ ps, p.date.isSome) →
      List.Pairwise (fun p q => dateLe q.date p.date = true)
        (sortProgramsByDateDesc ps)
      ∧ (sortProgramsByDateDesc ps).Perm ps)
    ∧ (∀ y1 m1 d1 y2 m2 d2 : Nat, y1 < 10000 → m1 < 100 → d1 < 100 →
      y2 < 10000 → m2 < 100 → d2 < 100 →
      (pyStrLe (dateString y1 m1 d1).data (dateString y2 m2 d2).data = true ↔
        chronLe y1 m1 d1 y2 m2 d2))
    ∧ sortProgramsByDateDesc
        [⟨"a1", "b1", "c1", some "2023-07-04"⟩,
          ⟨"a2", "b2", "c2", some "2023-01-01"⟩] =
      [⟨"a1", "b1", "c1", some "2023-07-04"⟩,
        ⟨"a2", "b2", "c2", some "2023-01-01"⟩]
    ∧ sortProgramsByDateDesc
        [⟨"a2", "b2", "c2", some "2023-01-01"⟩,
          ⟨"a1", "b1", "c1", some "2023-07-04"⟩] =
      [⟨"a1", "b1", "c1", some "2023-07-04"⟩,
        ⟨"a2", "b2", "c2", some "2023-01-01"⟩] := by
  refine ⟨?_, ?_, ?_, ?_⟩
  · intro ps _
    constructor
    · exact List.sorted_mergeSort
        (fun a b c hab hbc => dateLe_trans c.date b.date a.date hbc hab)
        (fun a b => dateLe_total b.date a.date) ps
    · exact List.mergeSort_perm ps _
  · exact dateString_le_iff_chron
  · have h1 : dateLe (some "2023-01-01") (some "2023-07-04") = true := by decide
    simp [sortProgramsByDateDesc, List.mergeSort, List.merge, h1]
  · have h2 : dateLe (some "2023-07-04") (some "2023-01-01") = false := by decide
    simp [sortProgramsByDateDesc, List.mergeSort, List.merge, h2]

/-- C5 witness: the sortedness and permutation conclusions at a concrete
all-dated list, and the order equivalence at the example dates. -/
theorem c5_witness :
    (List.Pairwise (fun p q => dateLe q.date p.date = true)
      (sortProgramsByDateDesc
        [⟨"a2", "b2", "c2", some "2023-01-01"⟩,
          ⟨"a1", "b1", "c1", some "2023-07-04"⟩])
      ∧ (sortProgramsByDateDesc
        [⟨"a2", "b2", "c2", some "2023-01-01"⟩,
          ⟨"a1", "b1", "c1", some "2023-07-04"⟩]).Perm
        [⟨"a2", "b2", "c2", some "2023-01-01"⟩,
          ⟨"a1", "b1", "c1", some "2023-07-04"⟩])
    ∧ (pyStrLe (dateString 2023 1 1).data (dateString 2023 7 4).data = true ↔
      chronLe 2023 1 1 2023 7 4) :=
  ⟨c5_aggregator_sorts_descending.1
      [⟨"a2", "b2", "c2", some "2023-01-01"⟩,
        ⟨"a1", "b1", "c1", some "2023-07-04"⟩] (by decide),
    c5_aggregator_sorts_descending.2.1 2023 1 1 2023 7 4 (by decide) (by decide)
      (by decide) (by decide) (by decide) (by decide)⟩

/-- Helper: `strptime(_, '%Y-%m-%d')` leaves the time-of-day at midnight. -/
theorem strptimeYmd_midnight (s : String) (dt : Datetime)
    (h : strptimeYmd s = some dt) :
    dt.hour = 0 ∧ dt.minute = 0 ∧ dt.second = 0 := by
  unfold strptimeYmd at h
  repeat' split at h
  all_goals try exact Option.noConfusion h
  all_goals
    have h2 := Option.some.inj h
  all_goals subst h2
  all_goals exact ⟨rfl, rfl, rfl⟩

/-- Helper: when every record's date parses, the item loop of
`build_rss_feed` succeeds and produces entries field-for-field. -/
theorem buildItems_ok_of_dates (items : List Program)
    (h : ∀ r ∈ items, ∃ s, r.date = some s ∧ (strptimeYmd s).isSome) :
    ∃ ris, buildItems items = .ok ris
      ∧ List.Forall₂ (fun (p : Program) (ri : RSSItem) =>
          ri.title = p.title ∧ ri.link = p.link ∧
          ri.description = p.description ∧ ri.guid = p.link ∧
          p.date.bind strptimeYmd = some ri.pubDate ∧
          ri.pubDate.hour = 0 ∧ ri.pubDate.minute = 0 ∧ ri.pubDate.second = 0)
        items ris := by
  induction items with
  | nil => exact ⟨[], rfl, List.Forall₂.nil⟩
  | cons p ps ih =>
    obtain ⟨s, hs, hsome⟩ := h p (List.mem_cons_self p ps)
    obtain ⟨dt, hdt⟩ := Option.isSome_iff_exists.mp hsome
    obtain ⟨ris, hris, hfa⟩ := ih (fun r hr => h r (List.mem_cons_of_mem p hr))
    have hmid := strptimeYmd_midnight s dt hdt
    refine ⟨⟨p.title, p.link, p.description, p.link, dt⟩ :: ris, ?_, ?_⟩
    · simp [buildItems, itemDate, hs, hdt, hris]
    · exact List.Forall₂.cons
        ⟨rfl, rfl, rfl, rfl, by simp [hs, hdt], hmid.1, hmid.2.1, hmid.2.2⟩ hfa

/-- C6: with every record dated by a parseable `YYYY-MM-DD` string, the
serializer builds exactly one entry per record carrying the record's title,
link and description, a guid equal to the link, and a midnight publication
timestamp parsed from the date string; it then writes the feed to the output
path, replacing whatever was there. -/
theorem c6_serializer_builds_feed (t l d : String) (items : List Program)
    (fname : String) (now : Datetime) (fs : FS)
    (h : ∀ r ∈ items, ∃ s, r.date = some s ∧ (strptimeYmd s).isSome) :
    ∃ ris, buildItems items = .ok ris
      ∧ ris.length = items.length
      ∧ build_rss_feed t l d items fname now fs =
        .ok (writeFs fs fname ⟨t, l, d, now, ris⟩)
      ∧ writeFs fs fname ⟨t, l, d, now, ris⟩ fname = some ⟨t, l, d, now, ris⟩
      ∧ List.Forall₂ (fun (p : Program) (ri : RSSItem) =>
          ri.title = p.title ∧ ri.link = p.link ∧
          ri.description = p.description ∧ ri.guid = p.link ∧
          p.date.bind strptimeYmd = some ri.pubDate ∧
          ri.pubDate.hour = 0 ∧ ri.pubDate.minute = 0 ∧ ri.pubDate.second = 0)
        items ris := by
  obtain ⟨ris, hris, hfa⟩ := buildItems_ok_of_dates items h
  refine ⟨ris, hris, (List.Forall₂.length_eq hfa).symm, ?_, ?_, hfa⟩
  · simp [build_rss_feed, hris]
  · simp [writeFs]

/-- C6 witness: a single dated record produces a one-entry feed written to
the output path. -/
theorem c6_witness :
    ∃ ris, buildItems [⟨"t1", "d1", "l1", some "2023-07-04"⟩] = .ok ris
      ∧ ris.length = [(⟨"t1", "d1", "l1", some "2023-07-04"⟩ : Program)].length
      ∧ build_rss_feed "T" "L" "D" [⟨"t1", "d1", "l1", some "2023-07-04"⟩]
        "out.xml" ⟨2024, 1, 1, 0, 0, 0⟩ (fun _ => none) =
        .ok (writeFs (fun _ => none) "out.xml" ⟨"T", "L", "D", ⟨2024, 1, 1, 0, 0, 0⟩, ris⟩)
      ∧ writeFs (fun _ => none) "out.xml" ⟨"T", "L", "D", ⟨2024, 1, 1, 0, 0, 0⟩, ris⟩
        "out.xml" = some ⟨"T", "L", "D", ⟨2024, 1, 1, 0, 0, 0⟩, ris⟩
      ∧ List.Forall₂ (fun (p : Program) (ri : RSSItem) =>
          ri.title = p.title ∧ ri.link = p.link ∧
          ri.description = p.description ∧ ri.guid = p.link ∧
          p.date.bind strptimeYmd = some ri.pubDate ∧
          ri.pubDate.hour = 0 ∧ ri.pubDate.minute = 0 ∧ ri.pubDate.second = 0)
        [⟨"t1", "d1", "l1", some "2023-07-04"⟩] ris :=
  c6_serializer_builds_feed "T" "L" "D" [⟨"t1", "d1", "l1", some "2023-07-04"⟩]
    "out.xml" ⟨2024, 1, 1, 0, 0, 0⟩ (fun _ => none)
    (by
      rintro r hr
      rcases List.mem_singleton.mp hr with rfl
      exact ⟨"2023-07-04", rfl, by decide⟩)

end CreateRssFeed
